import Mathlib

/-!
# Verification of the USD automated-testing tool (`src/main.cpp`)

This file is a shallow embedding of the validation tool in `src/main.cpp`:
a check-registry/engine (`TestRunner`), four structural analyzers
(`validateGeometry`, `validateShaders`, `validateLayerStructure`,
`validateVariants`) and the command-line parser (`parseArguments`).
The external USD library (the scene-access facade) is modelled by explicit
data: prim lists, attribute read results, layer data, a resolution
environment for `SdfLayer::FindOrOpen`, and an explicit variant-selection
state threaded through the variant analyzer.

Machine integers do not occur on any modelled path; strings are Lean
`String`s; set membership of the `std::unordered_set<std::string>` argument
set is modelled by membership in the collected argument list (only
membership queries are performed on it, so the container's order and
uniqueness are irrelevant).
-/

/-- `TestResult` from `main.cpp`: the outcome of one analyzer. -/
structure TestResult where
  testName : String
  passed : Bool
  message : String
deriving DecidableEq

/-- `TestConfig` from `main.cpp`: which analyzers run, plus the optional
output path (`""` = unset, as in the C++ default-constructed string). -/
structure TestConfig where
  runGeometry : Bool := true
  runShaders : Bool := true
  runLayers : Bool := true
  runVariants : Bool := true
  outputPath : String := ""
deriving DecidableEq

/-- `TestConfig::hasEnabledTests` from `main.cpp`. -/
def TestConfig.hasEnabledTests (c : TestConfig) : Bool :=
  c.runGeometry || c.runShaders || c.runLayers || c.runVariants

/-- Result of `parseArguments`: the C++ function either calls `exit(n)` or
returns a `TestConfig`. -/
inductive ParseResult where
  | exitCode : Nat → ParseResult
  | ok : TestConfig → ParseResult
deriving DecidableEq

/-- The argument-collection loop of `parseArguments` (`main.cpp` lines
633-641): every argument is inserted into the argument set, except that the
argument following a `-output` is consumed as the output path and skipped.
A later `-output` overwrites the path (plain assignment in the loop).
`argv` is the argument vector without the program name (`argv[1..]`). -/
def collectArgs : List String → List String → String → List String × String
  | [], args, out => (args, out)
  | a :: rest, args, out =>
    if a = "-output" then
      match rest with
      | [] => (args ++ [a], out)
      | p :: rest2 => collectArgs rest2 (args ++ [a]) p
    else collectArgs rest (args ++ [a]) out

/-- The test `argv[1][0] == '-'` from `main.cpp` line 650: the first byte of
the first argument is a dash (an empty C++ string yields `'\0'`, not a
dash). -/
def firstCharIsDash (s : String) : Bool :=
  match s.data with
  | [] => false
  | c :: _ => c = '-'

/-- The flag-handling block of `parseArguments` (`main.cpp` lines 655-682).
Note the source's line 681: `-skip-variants` sets `runLayers = false`
(and leaves `runVariants` untouched); the embedding reproduces this. -/
def buildConfig (args : List String) (outPath : String) : TestConfig :=
  let config : TestConfig := { outputPath := outPath }
  if args.contains "-only-geometry" then
    { config with runGeometry := true, runShaders := false, runLayers := false, runVariants := false }
  else if args.contains "-only-shaders" then
    { config with runGeometry := false, runShaders := true, runLayers := false, runVariants := false }
  else if args.contains "-only-layers" then
    { config with runGeometry := false, runShaders := false, runLayers := true, runVariants := false }
  else if args.contains "-only-variants" then
    { config with runGeometry := false, runShaders := false, runLayers := false, runVariants := true }
  else
    let config := if args.contains "-skip-geometry" then { config with runGeometry := false } else config
    let config := if args.contains "-skip-shaders" then { config with runShaders := false } else config
    let config := if args.contains "-skip-layers" then { config with runLayers := false } else config
    let config := if args.contains "-skip-variants" then { config with runLayers := false } else config
    config

/-- The `onlyFlags` count of `parseArguments` (`main.cpp` lines 685-686). -/
def onlyFlagCount (args : List String) : Nat :=
  (if args.contains "-only-geometry" then 1 else 0) +
  (if args.contains "-only-shaders" then 1 else 0) +
  (if args.contains "-only-layers" then 1 else 0) +
  (if args.contains "-only-variants" then 1 else 0)

/-- The validation block of `parseArguments` (`main.cpp` lines 684-708).
The only/skip combination check keeps the source's line 696 verbatim: its
fourth operand is `args.count("-only-variants")` where the other three are
`-skip-*` counts. -/
def validateConfig (args : List String) (config : TestConfig) : ParseResult :=
  if onlyFlagCount args > 1 then ParseResult.exitCode 1
  else if 0 < onlyFlagCount args ∧
      (args.contains "-skip-geometry" || args.contains "-skip-shaders" ||
       args.contains "-skip-layers" || args.contains "-only-variants") = true then
    ParseResult.exitCode 1
  else if config.hasEnabledTests then ParseResult.ok config
  else ParseResult.exitCode 1

/-- `parseArguments` from `main.cpp` (lines 628-709) on `argv[1..]`,
assembled from the pieces above in source order: collect arguments and the
output path, short-circuit on `-help`, reject a missing or flag-like
positional path, build the config from only/skip flags, then validate. -/
def parseArguments (argv : List String) : ParseResult :=
  if ((collectArgs argv [] "").1).contains "-help" then ParseResult.exitCode 0
  else
    match argv with
    | [] => ParseResult.exitCode 1
    | first :: _ =>
      if firstCharIsDash first then ParseResult.exitCode 1
      else validateConfig (collectArgs argv [] "").1
        (buildConfig (collectArgs argv [] "").1 (collectArgs argv [] "").2)

/-- C1: On the command line `usdTestRunner scene.usd -skip-variants` the code
produces a config with `runLayers = false` and `runVariants = true`: the
`-skip-variants` branch (line 681) disables the layers analyzer, not the
variants analyzer, contradicting the program's own option documentation
("-skip-variants : Skip variant validation") and the claim. -/
theorem parseArguments_skip_variants_eval :
    parseArguments ["scene.usd", "-skip-variants"] =
      ParseResult.ok { runGeometry := true, runShaders := true, runLayers := false,
                       runVariants := true, outputPath := "" } := by
  decide

/-- C4: `-only-variants` alone is rejected with exit status 1 (line 696 tests
`args.count("-only-variants")` instead of `-skip-variants` in the only/skip
combination check), while `-only-geometry -skip-variants` — an only/skip
combination — is accepted; both contradict the claim and the program's own
help text ("'only' flags and 'skip' flags are mutually exclusive"). -/
theorem parseArguments_only_variants_eval :
    parseArguments ["scene.usd", "-only-variants"] = ParseResult.exitCode 1 ∧
    parseArguments ["scene.usd", "-only-geometry", "-skip-variants"] =
      ParseResult.ok { runGeometry := true, runShaders := false, runLayers := false,
                       runVariants := false, outputPath := "" } := by
  exact ⟨by decide, by decide⟩

theorem validateConfig_ok (args : List String) (config c : TestConfig)
    (h : validateConfig args config = ParseResult.ok c) : c.hasEnabledTests = true := by
  unfold validateConfig at h
  split at h
  · exact ParseResult.noConfusion h
  · split at h
    · exact ParseResult.noConfusion h
    · split at h
      · rename_i henabled
        injection h with h
        rw [← h]
        exact henabled
      · exact ParseResult.noConfusion h

/-- Every configuration that `parseArguments` returns has at least one
analyzer flag enabled (helper for the all-false rejection theorem). -/
theorem parseArguments_ok_hasEnabled_aux (argv : List String) (c : TestConfig)
    (h : parseArguments argv = ParseResult.ok c) : c.hasEnabledTests = true := by
  unfold parseArguments at h
  split at h
  · exact ParseResult.noConfusion h
  · split at h
    · exact ParseResult.noConfusion h
    · split at h
      · exact ParseResult.noConfusion h
      · exact validateConfig_ok _ _ _ h

/-- C7: a configuration with all four run flags false is rejected with exit
status 1 before the engine runs: the validation block (the guard at lines
702-706, embedded as `validateConfig`) maps it to exit code 1 for every
argument set, and `parseArguments` never returns such a configuration —
so `mainRun` never reaches `runTests` (where alone the scene is opened
and analyzers execute) under one. -/
theorem validateConfig_all_false_rejected (args : List String) (c : TestConfig)
    (h : c.hasEnabledTests = false) :
    validateConfig args c = ParseResult.exitCode 1 ∧
    (∀ argv, parseArguments argv ≠ ParseResult.ok c) := by
  constructor
  · unfold validateConfig
    split
    · rfl
    · split
      · rfl
      · rw [if_neg (by simp [h])]
  · intro argv hok
    rw [parseArguments_ok_hasEnabled_aux argv c hok] at h
    exact Bool.noConfusion h

/-- The configuration with every analyzer disabled. -/
def allFalseConfig : TestConfig :=
  { runGeometry := false, runShaders := false, runLayers := false, runVariants := false }

/-- Witness for C7 at the all-false configuration: it is rejected with exit
code 1 and is never produced by `parseArguments`. -/
theorem validateConfig_all_false_rejected_witness :
    allFalseConfig.hasEnabledTests = false ∧
    validateConfig [] allFalseConfig = ParseResult.exitCode 1 ∧
    parseArguments ["scene.usd"] ≠ ParseResult.ok allFalseConfig :=
  ⟨by decide,
   (validateConfig_all_false_rejected [] allFalseConfig (by decide)).1,
   (validateConfig_all_false_rejected [] allFalseConfig (by decide)).2 ["scene.usd"]⟩

/-! ## The execution and reporting engine (`TestRunner`) -/

/-- One line of `TestRunner::report`. -/
def reportLine (r : TestResult) : String :=
  "[" ++ (if r.passed then "PASS" else "FAIL") ++ "] " ++ r.testName ++ ": " ++ r.message ++ "\n"

/-- The summary and conclusion text of `TestRunner::summarize`. -/
def summaryText (results : List TestResult) : String :=
  "\nSummary:\n  Passed: " ++ toString (results.countP (fun r => r.passed)) ++
    "\n  Failed: " ++ toString (results.countP (fun r => !r.passed)) ++ "\n\n" ++
  (if results.countP (fun r => !r.passed) > 0 ∧ results.countP (fun r => r.passed) > 0 then
    "Some tests failed. Please review the USD file and address the failing tests.\n\n"
   else if results.countP (fun r => !r.passed) > 0 then
    "All tests failed. The USD file may have serious issues. Please review it thoroughly.\n\n"
   else "Congratulations, all tests were successful!\n\n")

/-- The selection-and-execution loop of `TestRunner::runTests` (`main.cpp`
lines 119-127): each registered `(id, test)` pair runs exactly when its
identifier's flag is set. The registry is generic in the scene-handle type
`σ`. -/
def runSelected {σ : Type} (stage : σ) (tests : List (String × (σ → TestResult)))
    (config : TestConfig) : List TestResult :=
  tests.foldl (fun results t =>
    if (t.1 == "geometry" && config.runGeometry) || (t.1 == "shaders" && config.runShaders) ||
       (t.1 == "layers" && config.runLayers) || (t.1 == "variants" && config.runVariants)
    then results ++ [t.2 stage] else results) []

/-- Spec-side selection policy: the fixed identifier-to-flag mapping of §4.1
("`select` filters by mapping each fixed identifier to its corresponding
RunConfig flag"). -/
def flagForId (config : TestConfig) (id : String) : Bool :=
  (id == "geometry" && config.runGeometry) || (id == "shaders" && config.runShaders) ||
  (id == "layers" && config.runLayers) || (id == "variants" && config.runVariants)

/-- Spec-side `select`: the registry filtered to the enabled entries, in
registration order. -/
def selectEntries {σ : Type} (tests : List (String × (σ → TestResult)))
    (config : TestConfig) : List (String × (σ → TestResult)) :=
  tests.filter (fun t => flagForId config t.1)

/-- Observable effects of one `TestRunner::runTests` call: the accumulated
results, the collected `output` text, and the lines written to `cerr`. -/
structure EngineRun where
  results : List TestResult
  outputText : String
  cerr : List String

/-- The `output` stringstream contents of a successful run. -/
def engineText {σ : Type} (stage : σ) (tests : List (String × (σ → TestResult)))
    (config : TestConfig) : String :=
  "Opened USD file Successfully.\n\n" ++
    (runSelected stage tests config).foldl (fun acc r => acc ++ reportLine r) "" ++
    summaryText (runSelected stage tests config)

/-- `TestRunner::runTests` (`main.cpp` lines 102-135) together with
`exportResults` (lines 185-194). `openResult` models `UsdStage::Open`
(`none` = the stage failed to open, which prints an error and returns
early); `outFileOpens` models whether `std::ofstream` can open
`config.outputPath` (a failure prints an error to `cerr` and returns). -/
def runTests {σ : Type} (openResult : Option σ) (tests : List (String × (σ → TestResult)))
    (config : TestConfig) (outFileOpens : Bool) : EngineRun :=
  match openResult with
  | none =>
    { results := [],
      outputText := "Failed to open USD file. Ensure the file path is correct and the file is accessible.\n\n",
      cerr := ["Failed to open USD file. Ensure the file path is correct and the file is accessible.\n\n"] }
  | some stage =>
    if config.outputPath ≠ "" then
      if outFileOpens then
        { results := runSelected stage tests config,
          outputText := engineText stage tests config, cerr := [] }
      else
        { results := runSelected stage tests config,
          outputText := engineText stage tests config,
          cerr := ["Error: Could not open output file: " ++ config.outputPath ++ "\n"] }
    else
      { results := runSelected stage tests config,
        outputText := engineText stage tests config, cerr := [] }

/-- `main` (`main.cpp` lines 740-767): the `-help` and missing-argument
short-circuits, then `parseArguments` (whose `exit` codes propagate), then
`runTests`; a run that reaches `runTests` returns 0. -/
def mainRun {σ : Type} (openResult : Option σ) (tests : List (String × (σ → TestResult)))
    (outFileOpens : Bool) (argv : List String) : Nat × EngineRun :=
  if argv.headD "" = "-help" then (0, { results := [], outputText := "", cerr := [] })
  else if argv.isEmpty then (1, { results := [], outputText := "", cerr := [] })
  else
    match parseArguments argv with
    | ParseResult.exitCode n => (n, { results := [], outputText := "", cerr := [] })
    | ParseResult.ok config => (0, runTests openResult tests config outFileOpens)

/-- Accumulator extraction for a left fold whose step appends a block per
element. -/
theorem foldl_step_append {α β : Type} (f : List β → α → List β) (g : α → List β)
    (hf : ∀ acc a, f acc a = acc ++ g a) :
    ∀ (l : List α) (acc : List β), l.foldl f acc = acc ++ l.flatMap g := by
  intro l
  induction l with
  | nil => intro acc; simp
  | cons a l ih =>
    intro acc
    simp only [List.foldl_cons, List.flatMap_cons, hf]
    rw [ih]
    simp [List.append_assoc]

theorem filter_map_eq_flatMap {α β : Type} (p : α → Bool) (f : α → β) (l : List α) :
    (l.filter p).map f = l.flatMap (fun a => if p a then [f a] else []) := by
  induction l with
  | nil => rfl
  | cons a l ih =>
    by_cases h : p a <;> simp [List.filter_cons, h, ih]

theorem runSelected_eq_selectEntries {σ : Type} (stage : σ)
    (tests : List (String × (σ → TestResult))) (config : TestConfig) :
    runSelected stage tests config = (selectEntries tests config).map (fun t => t.2 stage) := by
  unfold runSelected selectEntries
  rw [filter_map_eq_flatMap]
  rw [foldl_step_append _ (fun t => if flagForId config t.1 then [t.2 stage] else []) ?hf tests []]
  · simp
  · intro acc a
    show (if flagForId config a.1 then acc ++ [a.2 stage] else acc)
        = acc ++ (if flagForId config a.1 then [a.2 stage] else [])
    by_cases h : flagForId config a.1 <;> simp [h]

/-- C5: on a successfully opened scene the engine's result list is exactly
the analyzer outputs of the registry entries whose identifiers map to an
enabled flag, in original registration order — no entry invented,
duplicated, or reordered. -/
theorem runTests_executes_selected {σ : Type} (stage : σ)
    (tests : List (String × (σ → TestResult))) (config : TestConfig) (outFileOpens : Bool)
    (_h : config.hasEnabledTests = true) :
    (runTests (some stage) tests config outFileOpens).results
      = (selectEntries tests config).map (fun t => t.2 stage) := by
  have hr : (runTests (some stage) tests config outFileOpens).results
      = runSelected stage tests config := by
    by_cases hp : config.outputPath ≠ ""
    · by_cases hf : outFileOpens = true
      · simp [runTests, hp, hf]
      · simp [runTests, hp, hf]
    · simp [runTests, hp]
  rw [hr, runSelected_eq_selectEntries]

/-- A registry with all four analyzers and one foreign identifier, and a
config with two categories disabled, for the C5 witness. -/
def witnessTests : List (String × (Unit → TestResult)) :=
  [("geometry", fun _ => { testName := "Validate Geometry", passed := true, message := "g" }),
   ("shaders", fun _ => { testName := "Validate Shaders", passed := false, message := "s" }),
   ("layers", fun _ => { testName := "Validate Layer Structure", passed := true, message := "l" }),
   ("variants", fun _ => { testName := "Validate Variants", passed := true, message := "v" }),
   ("custom", fun _ => { testName := "Custom", passed := true, message := "c" })]

def witnessConfig : TestConfig := { runShaders := false, runVariants := false }

/-- Witness for C5 on a five-entry registry with two categories disabled. -/
theorem runTests_executes_selected_witness :
    witnessConfig.hasEnabledTests = true ∧
    (runTests (some ()) witnessTests witnessConfig false).results
      = (selectEntries witnessTests witnessConfig).map (fun t => t.2 ()) :=
  ⟨by decide, runTests_executes_selected () witnessTests witnessConfig false (by decide)⟩

theorem collectArgs_cons_ne (a : String) (rest args : List String) (out : String)
    (h : ¬ a = "-output") :
    collectArgs (a :: rest) args out = collectArgs rest (args ++ [a]) out := by
  cases rest <;> simp [collectArgs, h]

theorem collectArgs_mem_mono : ∀ (l args : List String) (out x : String),
    x ∈ args → x ∈ (collectArgs l args out).1
  | [], _, _, _, hx => hx
  | [a], args, out, x, hx => by
    by_cases h : a = "-output" <;> simp [collectArgs, h] <;> exact Or.inl hx
  | a :: p :: rest2, args, out, x, hx => by
    by_cases h : a = "-output"
    · have he : collectArgs (a :: p :: rest2) args out = collectArgs rest2 (args ++ [a]) p := by
        simp [collectArgs, h]
      rw [he]
      exact collectArgs_mem_mono rest2 (args ++ [a]) p x (List.mem_append_left _ hx)
    · rw [collectArgs_cons_ne a (p :: rest2) args out h]
      exact collectArgs_mem_mono (p :: rest2) (args ++ [a]) out x (List.mem_append_left _ hx)

theorem parseArguments_head_help (rest : List String) :
    parseArguments ("-help" :: rest) = ParseResult.exitCode 0 := by
  have hm : "-help" ∈ (collectArgs ("-help" :: rest) [] "").1 := by
    rw [collectArgs_cons_ne "-help" rest [] "" (by decide)]
    exact collectArgs_mem_mono rest ["-help"] "" "-help" (by simp)
  unfold parseArguments
  rw [if_pos (by simpa using hm)]

/-- C6: whenever argument validation succeeds, the program's exit status is
0 — independent of the scene opening, of how many analyzers fail, and of
whether the `-output` file can be opened; and when the scene opens but the
requested output file does not, the failure is reported on `cerr` while
the exit status stays 0. -/
theorem mainRun_exit_zero_and_reports_output_failure {σ : Type}
    (openResult : Option σ) (tests : List (String × (σ → TestResult)))
    (outFileOpens : Bool) (argv : List String) (c : TestConfig)
    (h : parseArguments argv = ParseResult.ok c) :
    (mainRun openResult tests outFileOpens argv).1 = 0 ∧
    (∀ stage : σ, openResult = some stage → c.outputPath ≠ "" → outFileOpens = false →
      ("Error: Could not open output file: " ++ c.outputPath ++ "\n") ∈
        (mainRun openResult tests outFileOpens argv).2.cerr) := by
  obtain ⟨a, rest, rfl⟩ : ∃ a rest, argv = a :: rest := by
    cases argv with
    | nil =>
      rw [show parseArguments [] = ParseResult.exitCode 1 from by decide] at h
      exact ParseResult.noConfusion h
    | cons a rest => exact ⟨a, rest, rfl⟩
  have ha : a ≠ "-help" := by
    intro hEq
    subst hEq
    rw [parseArguments_head_help] at h
    exact ParseResult.noConfusion h
  have hmain : mainRun openResult tests outFileOpens (a :: rest)
      = (0, runTests openResult tests c outFileOpens) := by
    unfold mainRun
    rw [if_neg (by simpa using ha), if_neg (by simp), h]
  constructor
  · rw [hmain]
  · intro stage hs hpath hfo
    subst hs
    subst hfo
    rw [hmain]
    simp [runTests, hpath]

/-- Witness for C6 on `usdTestRunner scene.usd -output out.txt` with an
opened scene, an empty registry, and an unopenable output file. -/
theorem mainRun_exit_zero_witness :
    parseArguments ["scene.usd", "-output", "out.txt"]
        = ParseResult.ok { outputPath := "out.txt" } ∧
    (mainRun (some ()) ([] : List (String × (Unit → TestResult))) false
        ["scene.usd", "-output", "out.txt"]).1 = 0 ∧
    ("Error: Could not open output file: " ++ "out.txt" ++ "\n") ∈
      (mainRun (some ()) ([] : List (String × (Unit → TestResult))) false
        ["scene.usd", "-output", "out.txt"]).2.cerr := by
  refine ⟨by decide, ?_, ?_⟩
  · exact (mainRun_exit_zero_and_reports_output_failure (some ()) []
      false ["scene.usd", "-output", "out.txt"] { outputPath := "out.txt" } (by decide)).1
  · exact (mainRun_exit_zero_and_reports_output_failure (some ()) []
      false ["scene.usd", "-output", "out.txt"] { outputPath := "out.txt" } (by decide)).2
      () rfl (by decide) rfl


/-! ## The variant analyzer (`validateVariants`) -/

/-- The error-aggregation loop shared by all four analyzers: the header line
followed by one "- error" line per finding. -/
def renderErrors (header : String) (errs : List String) : String :=
  errs.foldl (fun acc e => acc ++ "- " ++ e ++ "\n") header

/-- Variant-selection state of the stage: the current selection of each
(prim path, variant-set name) axis; `""` when nothing is selected, as
`UsdVariantSet::GetVariantSelection` returns the empty string then. -/
abbrev Sel := String → String → String

/-- A successful `UsdVariantSet::SetVariantSelection`: author one axis's
selection. -/
def setSel (st : Sel) (path setName v : String) : Sel :=
  fun q t => if q = path ∧ t = setName then v else st q t

/-- One variant set declared on a prim: its name and its variant-name list
(`UsdVariantSet::GetVariantNames`). -/
structure VarSetDecl where
  setName : String
  variantNames : List String

/-- One prim yielded by `UsdStage::TraverseAll`: its path, validity, and
declared variant-set list (`UsdVariantSets::GetNames`). -/
structure PrimDecl where
  path : String
  isValid : Bool
  varSets : List VarSetDecl

/-- The facade surface `validateVariants` touches. `setOk path setName`
models whether `SetVariantSelection` succeeds on that axis: in USD this
depends on whether the edit target can author that prim's variant-selection
opinion — a property of the prim and set, not of the value written — and a
failed call leaves the selection state unchanged. `validAt path st` models
`stage->GetPrimAtPath(path).IsValid()` under selection state `st`. -/
structure VariantStage where
  prims : List PrimDecl
  setOk : String → String → Bool
  validAt : String → Sel → Bool

/-- The inner probe loop of `validateVariants` (`main.cpp` lines 551-570):
for each declared variant name, skip empty names, try to select the
variant (an unchanged state and an error on failure), and after a
successful selection re-resolve the prim path and record an error if it
became invalid. -/
def probeLoop (stage : VariantStage) (path setName : String) :
    List String → Sel → List String → Sel × List String
  | [], st, errs => (st, errs)
  | v :: vs, st, errs =>
    if v = "" then
      probeLoop stage path setName vs st
        (errs ++ ["Empty variant name in set '" ++ setName ++ "' at: " ++ path])
    else if !stage.setOk path setName then
      probeLoop stage path setName vs st
        (errs ++ ["Failed to set variant '" ++ v ++ "' in set '" ++ setName ++ "' at: " ++ path])
    else
      probeLoop stage path setName vs (setSel st path setName v)
        (if stage.validAt path (setSel st path setName v) then errs
         else errs ++ ["Prim became invalid after setting variant '" ++ v ++ "' in set '" ++
            setName ++ "' at: " ++ path])

/-- One variant set's processing in `validateVariants` (`main.cpp` lines
534-576): reject an empty set name, reject an empty variant list, probe
every variant, and finally restore the captured original selection
(`st path vs.setName`, read before the loop) — but only when that original
was non-empty; the restoring `SetVariantSelection` call leaves the state
unchanged when it fails. -/
def processSet (stage : VariantStage) (path : String) (vs : VarSetDecl)
    (st : Sel) (errs : List String) : Sel × List String :=
  if vs.setName = "" then
    (st, errs ++ ["Found a variant set with an empty name at: " ++ path])
  else if vs.variantNames.isEmpty then
    (st, errs ++ ["Variant set '" ++ vs.setName ++ "' has no variants on prim: " ++ path])
  else
    (if st path vs.setName ≠ "" then
       (if stage.setOk path vs.setName then
          setSel (probeLoop stage path vs.setName vs.variantNames st errs).1
            path vs.setName (st path vs.setName)
        else (probeLoop stage path vs.setName vs.variantNames st errs).1)
     else (probeLoop stage path vs.setName vs.variantNames st errs).1,
     (probeLoop stage path vs.setName vs.variantNames st errs).2)

/-- The per-prim loop over its variant sets. -/
def runSets (stage : VariantStage) (path : String) :
    List VarSetDecl → Sel → List String → Sel × List String
  | [], st, errs => (st, errs)
  | vs :: rest, st, errs =>
    runSets stage path rest (processSet stage path vs st errs).1
      (processSet stage path vs st errs).2

/-- The `TraverseAll` loop of `validateVariants` (`main.cpp` lines 520-577):
invalid prims produce an error and are skipped; a prim with a non-empty
variant-set list marks `foundAnyVariants`. -/
def runPrims (stage : VariantStage) :
    List PrimDecl → Sel → List String → Bool → Sel × List String × Bool
  | [], st, errs, found => (st, errs, found)
  | p :: rest, st, errs, found =>
    if !p.isValid then
      runPrims stage rest st (errs ++ ["Encountered an invalid prim at: " ++ p.path]) found
    else
      runPrims stage rest
        (runSets stage p.path p.varSets st errs).1
        (runSets stage p.path p.varSets st errs).2
        (found || !p.varSets.isEmpty)

/-- `validateVariants` (`main.cpp` lines 511-596) as a state transformer:
returns the `TestResult` and the stage's final selection state. The C++
null-stage guard is not modelled (a `VariantStage` is always a live
handle). -/
def validateVariants (stage : VariantStage) (st : Sel) : TestResult × Sel :=
  if !(runPrims stage stage.prims st [] false).2.2 then
    ({ testName := "Validate Variants", passed := true,
       message := "No variants found in the scene. That's acceptable." },
     (runPrims stage stage.prims st [] false).1)
  else if !(runPrims stage stage.prims st [] false).2.1.isEmpty then
    ({ testName := "Validate Variants", passed := false,
       message := renderErrors "Variant validation failed with the following issues:\n"
         (runPrims stage stage.prims st [] false).2.1 },
     (runPrims stage stage.prims st [] false).1)
  else
    ({ testName := "Validate Variants", passed := true,
       message := "All variants and their selections are valid." },
     (runPrims stage stage.prims st [] false).1)

theorem setSel_same (st : Sel) (path setName v : String) :
    setSel st path setName v path setName = v := by
  simp [setSel]

theorem setSel_other (st : Sel) (path setName v q t : String)
    (h : ¬(q = path ∧ t = setName)) : setSel st path setName v q t = st q t := by
  simp only [setSel]
  rw [if_neg h]

theorem probeLoop_state_other (stage : VariantStage) (path setName : String) :
    ∀ (vars : List String) (st : Sel) (errs : List String) (q t : String),
      ¬(q = path ∧ t = setName) →
      (probeLoop stage path setName vars st errs).1 q t = st q t := by
  intro vars
  induction vars with
  | nil => intro st errs q t _; rfl
  | cons v vs ih =>
    intro st errs q t h
    unfold probeLoop
    split
    · exact ih _ _ _ _ h
    · split
      · exact ih _ _ _ _ h
      · exact (ih _ _ _ _ h).trans (setSel_other st path setName v q t h)

theorem probeLoop_state_notOk (stage : VariantStage) (path setName : String)
    (hok : stage.setOk path setName = false) :
    ∀ (vars : List String) (st : Sel) (errs : List String),
      (probeLoop stage path setName vars st errs).1 = st := by
  intro vars
  induction vars with
  | nil => intro st errs; rfl
  | cons v vs ih =>
    intro st errs
    unfold probeLoop
    split
    · exact ih _ _
    · split
      · exact ih _ _
      · rename_i hset
        simp [hok] at hset

theorem processSet_state_other (stage : VariantStage) (path : String) (vs : VarSetDecl)
    (st : Sel) (errs : List String) (q t : String) (h : ¬(q = path ∧ t = vs.setName)) :
    (processSet stage path vs st errs).1 q t = st q t := by
  unfold processSet
  split
  · rfl
  · split
    · rfl
    · split
      · split
        · exact (setSel_other _ _ _ _ _ _ h).trans
            (probeLoop_state_other stage path vs.setName vs.variantNames st errs q t h)
        · exact probeLoop_state_other stage path vs.setName vs.variantNames st errs q t h
      · exact probeLoop_state_other stage path vs.setName vs.variantNames st errs q t h

theorem processSet_key_restore (stage : VariantStage) (path : String) (vs : VarSetDecl)
    (st : Sel) (errs : List String) (h : st path vs.setName ≠ "") :
    (processSet stage path vs st errs).1 path vs.setName = st path vs.setName := by
  unfold processSet
  split
  · rfl
  · split
    · rfl
    · split
      · exact setSel_same _ _ _ _
      · rename_i hok
        rw [probeLoop_state_notOk stage path vs.setName (by simpa using hok)
          vs.variantNames st errs]

theorem processSet_state_preserved (stage : VariantStage) (path : String) (vs : VarSetDecl)
    (st : Sel) (errs : List String) (h : st path vs.setName ≠ "") :
    (processSet stage path vs st errs).1 = st := by
  funext q t
  by_cases hk : q = path ∧ t = vs.setName
  · obtain ⟨hq, ht⟩ := hk
    subst hq
    subst ht
    exact processSet_key_restore stage q vs st errs h
  · exact processSet_state_other stage path vs st errs q t hk

theorem runSets_key_preserved (stage : VariantStage) (path : String) :
    ∀ (sets : List VarSetDecl) (st : Sel) (errs : List String) (q t : String),
      st q t ≠ "" → (runSets stage path sets st errs).1 q t = st q t := by
  intro sets
  induction sets with
  | nil => intro st errs q t _; rfl
  | cons vs rest ih =>
    intro st errs q t h
    unfold runSets
    have hstep : (processSet stage path vs st errs).1 q t = st q t := by
      by_cases hk : q = path ∧ t = vs.setName
      · obtain ⟨hq, ht⟩ := hk
        subst hq
        subst ht
        exact processSet_key_restore stage q vs st errs h
      · exact processSet_state_other stage path vs st errs q t hk
    rw [ih (processSet stage path vs st errs).1 (processSet stage path vs st errs).2 q t
      (by rw [hstep]; exact h)]
    exact hstep

theorem runSets_state_preserved (stage : VariantStage) (path : String) :
    ∀ (sets : List VarSetDecl) (st : Sel) (errs : List String),
      (∀ vs ∈ sets, st path vs.setName ≠ "") →
      (runSets stage path sets st errs).1 = st := by
  intro sets
  induction sets with
  | nil => intro st errs _; rfl
  | cons vs rest ih =>
    intro st errs hall
    unfold runSets
    have h1 : (processSet stage path vs st errs).1 = st :=
      processSet_state_preserved stage path vs st errs (hall vs (by simp))
    rw [h1]
    exact ih st _ (fun vs2 hvs2 => hall vs2 (List.mem_cons_of_mem _ hvs2))

theorem runPrims_key_preserved (stage : VariantStage) :
    ∀ (prims : List PrimDecl) (st : Sel) (errs : List String) (found : Bool) (q t : String),
      st q t ≠ "" → (runPrims stage prims st errs found).1 q t = st q t := by
  intro prims
  induction prims with
  | nil => intro st errs found q t _; rfl
  | cons p rest ih =>
    intro st errs found q t h
    unfold runPrims
    split
    · exact ih _ _ _ _ _ h
    · have hstep := runSets_key_preserved stage p.path p.varSets st errs q t h
      rw [ih _ _ _ _ _ (by rw [hstep]; exact h)]
      exact hstep

theorem runPrims_state_preserved (stage : VariantStage) :
    ∀ (prims : List PrimDecl) (st : Sel) (errs : List String) (found : Bool),
      (∀ p ∈ prims, ∀ vs ∈ p.varSets, st p.path vs.setName ≠ "") →
      (runPrims stage prims st errs found).1 = st := by
  intro prims
  induction prims with
  | nil => intro st errs found _; rfl
  | cons p rest ih =>
    intro st errs found hall
    unfold runPrims
    split
    · exact ih _ _ _ (fun p2 hp2 => hall p2 (List.mem_cons_of_mem _ hp2))
    · have h1 : (runSets stage p.path p.varSets st errs).1 = st :=
        runSets_state_preserved stage p.path p.varSets st errs (fun vs hvs => hall p (by simp) vs hvs)
      rw [h1]
      exact ih st _ _ (fun p2 hp2 => hall p2 (List.mem_cons_of_mem _ hp2))

theorem validateVariants_state_eq (stage : VariantStage) (st : Sel) :
    (validateVariants stage st).2 = (runPrims stage stage.prims st [] false).1 := by
  unfold validateVariants
  split
  · rfl
  · split <;> rfl

/-- C3: a variant axis whose selection before `validateVariants` is a
non-empty string `s` has selection `s` again once the analyzer returns —
for every stage (hence regardless of which probes succeed or fail, and of
how other axes behave), since the restoration step at lines 572-575 runs
after the variant list is exhausted on every path. -/
theorem validateVariants_preserves_nonempty_selection (stage : VariantStage) (st : Sel)
    (path setName s : String) (hsel : st path setName = s) (hne : s ≠ "") :
    (validateVariants stage st).2 path setName = s := by
  rw [validateVariants_state_eq]
  rw [runPrims_key_preserved stage stage.prims st [] false path setName
    (by rw [hsel]; exact hne)]
  exact hsel

/-- A stage with one prim carrying one axis with variants {A, B, C}, where
the probe of variant C makes the prim resolve invalid (so a probe fails),
and an initial state selecting B everywhere. -/
def probeStage : VariantStage :=
  { prims := [{ path := "/Root/Model", isValid := true,
                varSets := [{ setName := "lod", variantNames := ["A", "B", "C"] }] }],
    setOk := fun _ _ => true,
    validAt := fun _ st => st "/Root/Model" "lod" != "C" }

def probeSel : Sel := fun _ _ => "B"

/-- Witness for C3: with original selection `B` on axis `lod` and a failing
probe among {A, B, C}, the selection is `B` again after the analyzer. -/
theorem validateVariants_preserves_nonempty_selection_witness :
    probeSel "/Root/Model" "lod" = "B" ∧ ("B" : String) ≠ "" ∧
    (validateVariants probeStage probeSel).2 "/Root/Model" "lod" = "B" :=
  ⟨rfl, by decide, validateVariants_preserves_nonempty_selection probeStage probeSel
      "/Root/Model" "lod" "B" rfl (by decide)⟩

/-- A stage with one prim carrying one axis with a single variant and no
original selection. -/
def emptySelStage : VariantStage :=
  { prims := [{ path := "/Root/Model", isValid := true,
                varSets := [{ setName := "lod", variantNames := ["A"] }] }],
    setOk := fun _ _ => true,
    validAt := fun _ _ => true }

def emptySel : Sel := fun _ _ => ""

/-- C2 counterexample: for an axis whose captured original selection is the
empty string, `validateVariants` does not restore the scene state — the
guard at line 573 skips restoration, so the axis is left selecting the
last successfully probed variant ("A") instead of its original empty
selection; the scene state is observably changed after the analyzer
returns. -/
theorem validateVariants_empty_original_not_restored :
    (validateVariants emptySelStage emptySel).2 "/Root/Model" "lod" ≠
      emptySel "/Root/Model" "lod" ∧
    (validateVariants emptySelStage emptySel).2 "/Root/Model" "lod" = "A" ∧
    emptySel "/Root/Model" "lod" = "" := by
  refine ⟨by decide, by decide, rfl⟩

/-- C2 (amended): provided every axis's captured original selection is
non-empty, every mutation made by `validateVariants` is restored before it
returns — the final selection state equals the initial one — and
consequently a second run on the resulting state returns the identical
Outcome and state (idempotence). An axis whose original selection is empty
is instead left at the last successfully probed variant. -/
theorem validateVariants_state_restored_of_nonempty_originals (stage : VariantStage) (st : Sel)
    (hall : ∀ p ∈ stage.prims, ∀ vs ∈ p.varSets, st p.path vs.setName ≠ "") :
    (validateVariants stage st).2 = st ∧
    validateVariants stage ((validateVariants stage st).2) = validateVariants stage st := by
  have hpres : (validateVariants stage st).2 = st := by
    rw [validateVariants_state_eq]
    exact runPrims_state_preserved stage stage.prims st [] false hall
  exact ⟨hpres, by rw [hpres]⟩

/-- Witness for C2 (amended) on `probeStage` with all originals set to B. -/
theorem validateVariants_state_restored_witness :
    (∀ p ∈ probeStage.prims, ∀ vs ∈ p.varSets, probeSel p.path vs.setName ≠ "") ∧
    (validateVariants probeStage probeSel).2 = probeSel :=
  ⟨by decide,
   (validateVariants_state_restored_of_nonempty_originals probeStage probeSel (by decide)).1⟩

/-! ## The layer-structure analyzer (`validateLayerStructure`) -/

/-- The root prim spec of a layer (`SdfLayer::GetPrimAtPath("/")`): the
asset paths of its added-or-explicit references and payloads. -/
structure PrimSpecData where
  references : List String
  payloads : List String

/-- One layer of the stack (`SdfLayerHandle`); `none` in the stack models a
null handle. -/
structure LayerData where
  identifier : String
  isAnonymous : Bool
  hasDefaultPrim : Bool
  subLayerPaths : List String
  rootPrimSpec : Option PrimSpecData

/-- The resolution environment: `findOrOpen` models whether
`SdfLayer::FindOrOpen` succeeds on an asset path, and `externalRefs` the
`GetExternalReferences` list of the layer opened from a path. -/
structure LayerEnv where
  findOrOpen : String → Bool
  externalRefs : String → List String

/-- The sublayer loop of `validateLayerStructure` (`main.cpp` lines
449-461): unresolved sublayers are reported; each resolved sublayer's own
external references are resolved and reported when broken. -/
def subLayerErrors (env : LayerEnv) (paths : List String) (errs : List String) : List String :=
  paths.foldl (fun errs p =>
    if ¬ env.findOrOpen p then errs ++ ["Unresolved sublayer: " ++ p]
    else (env.externalRefs p).foldl (fun errs r =>
      if ¬ env.findOrOpen r then errs ++ ["Broken external reference in sublayer: " ++ r]
      else errs) errs) errs

/-- The reference loop over the root prim spec (`main.cpp` lines 466-470):
only non-empty asset paths are resolved and reported. -/
def refErrors (env : LayerEnv) (refs : List String) (errs : List String) : List String :=
  refs.foldl (fun errs ref =>
    if ref ≠ "" ∧ ¬ env.findOrOpen ref then errs ++ ["Broken reference in layer: " ++ ref]
    else errs) errs

/-- The payload loop over the root prim spec (`main.cpp` lines 472-476). -/
def payloadErrors (env : LayerEnv) (payloads : List String) (errs : List String) : List String :=
  payloads.foldl (fun errs p =>
    if p ≠ "" ∧ ¬ env.findOrOpen p then errs ++ ["Broken payload in layer: " ++ p]
    else errs) errs

/-- The per-index layer loop of `validateLayerStructure` (`main.cpp` lines
434-481), threading the error accumulator and the seen-identifier set (the
`std::unordered_set` is modelled as a list queried by membership). -/
def layerLoop (env : LayerEnv) :
    List (Option LayerData) → Nat → List String → List String → List String
  | [], _, errs, _ => errs
  | none :: rest, i, errs, seen =>
    layerLoop env rest (i + 1) (errs ++ ["Broken reference at layer index " ++ toString i]) seen
  | some layer :: rest, i, errs, seen =>
    layerLoop env rest (i + 1)
      (match layer.rootPrimSpec with
       | some spec =>
         payloadErrors env spec.payloads
           (refErrors env spec.references
             (subLayerErrors env layer.subLayerPaths
               (if seen.contains layer.identifier then
                  errs ++ ["Duplicate layer identifier found: " ++ layer.identifier]
                else errs)))
       | none =>
         (subLayerErrors env layer.subLayerPaths
            (if seen.contains layer.identifier then
               errs ++ ["Duplicate layer identifier found: " ++ layer.identifier]
             else errs)) ++
           ["Layer at index " ++ toString i ++
            " has no root prim (possibly a library or session layer)."])
      (if seen.contains layer.identifier then seen else seen ++ [layer.identifier])

/-- The verdict of `validateLayerStructure` (`main.cpp` lines 483-491). -/
def layerVerdict (errs : List String) : TestResult :=
  if ¬ errs.isEmpty then
    { testName := "Validate Layer Structure", passed := false,
      message := renderErrors "Layer structure validation failed with the following issues:\n" errs }
  else
    { testName := "Validate Layer Structure", passed := true,
      message := "Layer stack and all references are valid." }

/-- `validateLayerStructure` (`main.cpp` lines 411-492): empty-stack and
null-root hard failures, the root layer's default-prim check، then the
loop over the whole stack; the null-stage guard is not modelled. -/
def validateLayerStructure (env : LayerEnv) (layerStack : List (Option LayerData)) : TestResult :=
  match layerStack with
  | [] =>
    { testName := "Validate Layer Structure", passed := false, message := "Layer stack is empty." }
  | none :: _ =>
    { testName := "Validate Layer Structure", passed := false,
      message := "The first layer in the stack is null." }
  | some rootLayer :: rest =>
    layerVerdict
      (layerLoop env (some rootLayer :: rest) 0
        (if ¬ rootLayer.isAnonymous ∧ ¬ rootLayer.hasDefaultPrim then
           ["Root layer missing default prim specification: " ++ rootLayer.identifier]
         else [])
        [])

/-- Spec-side per-sublayer error block. -/
def subLayerBlock (env : LayerEnv) (paths : List String) : List String :=
  paths.flatMap (fun p =>
    if ¬ env.findOrOpen p then ["Unresolved sublayer: " ++ p]
    else (env.externalRefs p).flatMap (fun r =>
      if ¬ env.findOrOpen r then ["Broken external reference in sublayer: " ++ r] else []))

/-- Spec-side broken-reference block of a root prim spec. -/
def refBlock (env : LayerEnv) (refs : List String) : List String :=
  refs.flatMap (fun ref =>
    if ref ≠ "" ∧ ¬ env.findOrOpen ref then ["Broken reference in layer: " ++ ref] else [])

/-- Spec-side broken-payload block of a root prim spec. -/
def payloadBlock (env : LayerEnv) (payloads : List String) : List String :=
  payloads.flatMap (fun p =>
    if p ≠ "" ∧ ¬ env.findOrOpen p then ["Broken payload in layer: " ++ p] else [])

/-- Spec-side per-layer error block, in the claimed order: duplicate
identifier first, then sublayer issues, then root-spec issues. -/
def layerBlock (env : LayerEnv) (seen : List String) (i : Nat) : Option LayerData → List String
  | none => ["Broken reference at layer index " ++ toString i]
  | some layer =>
    (if seen.contains layer.identifier then
       ["Duplicate layer identifier found: " ++ layer.identifier] else []) ++
    subLayerBlock env layer.subLayerPaths ++
    (match layer.rootPrimSpec with
     | some spec => refBlock env spec.references ++ payloadBlock env spec.payloads
     | none => ["Layer at index " ++ toString i ++
                " has no root prim (possibly a library or session layer)."])

/-- The seen-identifier set after one layer. -/
def seenAfter (seen : List String) : Option LayerData → List String
  | none => seen
  | some layer => if seen.contains layer.identifier then seen else seen ++ [layer.identifier]

/-- Spec-side error list of the whole stack: the per-layer blocks
concatenated in stack-index order. -/
def stackBlocks (env : LayerEnv) : List (Option LayerData) → Nat → List String → List String
  | [], _, _ => []
  | l :: rest, i, seen => layerBlock env seen i l ++ stackBlocks env rest (i + 1) (seenAfter seen l)

theorem foldl_guard_append {α : Type} (P : α → Prop) [DecidablePred P] (msg : α → String)
    (l : List α) (acc : List String) :
    l.foldl (fun errs a => if P a then errs ++ [msg a] else errs) acc
      = acc ++ l.flatMap (fun a => if P a then [msg a] else []) := by
  apply foldl_step_append
  intro acc2 a
  split <;> simp

theorem refErrors_eq (env : LayerEnv) (refs errs : List String) :
    refErrors env refs errs = errs ++ refBlock env refs := by
  unfold refErrors refBlock
  exact foldl_guard_append _ _ refs errs

theorem payloadErrors_eq (env : LayerEnv) (payloads errs : List String) :
    payloadErrors env payloads errs = errs ++ payloadBlock env payloads := by
  unfold payloadErrors payloadBlock
  exact foldl_guard_append _ _ payloads errs

theorem subLayerErrors_eq (env : LayerEnv) (paths errs : List String) :
    subLayerErrors env paths errs = errs ++ subLayerBlock env paths := by
  unfold subLayerErrors subLayerBlock
  apply foldl_step_append
  intro acc p
  by_cases hp : ¬ env.findOrOpen p = true
  · rw [if_pos hp, if_pos hp]
  · rw [if_neg hp, if_neg hp]
    exact foldl_guard_append (fun r => ¬ env.findOrOpen r = true)
      (fun r => "Broken external reference in sublayer: " ++ r) (env.externalRefs p) acc

theorem layerLoop_eq (env : LayerEnv) :
    ∀ (stack : List (Option LayerData)) (i : Nat) (errs seen : List String),
      layerLoop env stack i errs seen = errs ++ stackBlocks env stack i seen := by
  intro stack
  induction stack with
  | nil => intro i errs seen; simp [layerLoop, stackBlocks]
  | cons l rest ih =>
    intro i errs seen
    cases l with
    | none =>
      unfold layerLoop stackBlocks
      rw [ih]
      simp [layerBlock, seenAfter, List.append_assoc]
    | some layer =>
      unfold layerLoop stackBlocks
      rw [ih]
      cases hspec : layer.rootPrimSpec with
      | some spec =>
        simp only [hspec]
        rw [payloadErrors_eq, refErrors_eq, subLayerErrors_eq]
        by_cases hdup : layer.identifier ∈ seen <;>
          simp [layerBlock, seenAfter, hdup, hspec, List.append_assoc]
      | none =>
        simp only [hspec]
        rw [subLayerErrors_eq]
        by_cases hdup : layer.identifier ∈ seen <;>
          simp [layerBlock, seenAfter, hdup, hspec, List.append_assoc]

/-- C8: for every non-empty stack with a readable root layer, the analyzer's
verdict renders exactly the error list consisting of the root layer's
default-prim check followed by the per-layer blocks in stack-index order —
each block being (in this order) the duplicate-identifier error, the
sublayer errors (each unresolved sublayer, and each resolved sublayer's
broken external references), then the root-node-spec errors (broken
references, then broken payloads, or the missing-root-prim error). -/
theorem validateLayerStructure_message_order (env : LayerEnv) (rootLayer : LayerData)
    (rest : List (Option LayerData)) :
    validateLayerStructure env (some rootLayer :: rest) =
      layerVerdict
        ((if ¬ rootLayer.isAnonymous ∧ ¬ rootLayer.hasDefaultPrim then
            ["Root layer missing default prim specification: " ++ rootLayer.identifier]
          else []) ++
         stackBlocks env (some rootLayer :: rest) 0 []) := by
  have h0 : validateLayerStructure env (some rootLayer :: rest) =
      layerVerdict
        (layerLoop env (some rootLayer :: rest) 0
          (if ¬ rootLayer.isAnonymous ∧ ¬ rootLayer.hasDefaultPrim then
             ["Root layer missing default prim specification: " ++ rootLayer.identifier]
           else [])
          []) := rfl
  rw [h0, layerLoop_eq]

/-- A layer with the empty-string entries removed from its root prim spec's
reference and payload lists. -/
def stripLayer (layer : LayerData) : LayerData :=
  { layer with rootPrimSpec := layer.rootPrimSpec.map (fun spec =>
      { references := spec.references.filter (fun r => r ≠ ""),
        payloads := spec.payloads.filter (fun p => p ≠ "") }) }

def stripEmptyAssets (l : Option LayerData) : Option LayerData := l.map stripLayer

theorem flatMap_guard_filter_ne_empty (P : String → Prop) [DecidablePred P]
    (msg : String → String) (l : List String) :
    (l.filter (fun r => r ≠ "")).flatMap (fun a => if a ≠ "" ∧ P a then [msg a] else [])
      = l.flatMap (fun a => if a ≠ "" ∧ P a then [msg a] else []) := by
  induction l with
  | nil => rfl
  | cons a l ih =>
    by_cases ha : a = ""
    · subst ha
      simpa [List.filter_cons] using ih
    · rw [List.filter_cons, if_pos (by simpa using ha), List.flatMap_cons, List.flatMap_cons, ih]

theorem refBlock_filter (env : LayerEnv) (refs : List String) :
    refBlock env (refs.filter (fun r => r ≠ "")) = refBlock env refs := by
  unfold refBlock
  exact flatMap_guard_filter_ne_empty (fun a => ¬ env.findOrOpen a = true)
    (fun a => "Broken reference in layer: " ++ a) refs

theorem payloadBlock_filter (env : LayerEnv) (payloads : List String) :
    payloadBlock env (payloads.filter (fun p => p ≠ "")) = payloadBlock env payloads := by
  unfold payloadBlock
  exact flatMap_guard_filter_ne_empty (fun a => ¬ env.findOrOpen a = true)
    (fun a => "Broken payload in layer: " ++ a) payloads

theorem layerBlock_strip (env : LayerEnv) (seen : List String) (i : Nat)
    (l : Option LayerData) :
    layerBlock env seen i (stripEmptyAssets l) = layerBlock env seen i l := by
  cases l with
  | none => rfl
  | some layer =>
    cases hspec : layer.rootPrimSpec with
    | none =>
      simp only [stripEmptyAssets, Option.map_some', stripLayer, layerBlock, hspec,
        Option.map_none']
    | some spec =>
      simp only [stripEmptyAssets, Option.map_some', stripLayer, layerBlock, hspec]
      rw [refBlock_filter, payloadBlock_filter]

theorem seenAfter_strip (seen : List String) (l : Option LayerData) :
    seenAfter seen (stripEmptyAssets l) = seenAfter seen l := by
  cases l <;> simp [stripEmptyAssets, stripLayer, seenAfter]

theorem stackBlocks_strip (env : LayerEnv) :
    ∀ (stack : List (Option LayerData)) (i : Nat) (seen : List String),
      stackBlocks env (stack.map stripEmptyAssets) i seen = stackBlocks env stack i seen := by
  intro stack
  induction stack with
  | nil => intro i seen; rfl
  | cons l rest ih =>
    intro i seen
    simp only [List.map_cons]
    unfold stackBlocks
    rw [layerBlock_strip, seenAfter_strip, ih]

/-- C10: an empty asset path in a root node spec's reference or payload list
is silently skipped — the analyzer's result on any stack is identical to
its result after deleting every empty entry from those lists, and an empty
entry at the head of a reference or payload list contributes nothing to
the error accumulation, so it is never reported as a broken reference or
broken payload. -/
theorem layer_empty_asset_paths_skipped (env : LayerEnv) (stack : List (Option LayerData)) :
    validateLayerStructure env (stack.map stripEmptyAssets) = validateLayerStructure env stack ∧
    (∀ refs errs, refErrors env ("" :: refs) errs = refErrors env refs errs) ∧
    (∀ payloads errs, payloadErrors env ("" :: payloads) errs = payloadErrors env payloads errs) := by
  refine ⟨?_, ?_, ?_⟩
  · cases stack with
    | nil => rfl
    | cons l rest =>
      cases l with
      | none => rfl
      | some layer =>
        have h0 : (some layer :: rest).map stripEmptyAssets
            = some (stripLayer layer) :: rest.map stripEmptyAssets := by
          simp [stripEmptyAssets]
        rw [h0]
        have h1 : validateLayerStructure env (some (stripLayer layer) :: rest.map stripEmptyAssets)
            = layerVerdict
              (layerLoop env (some (stripLayer layer) :: rest.map stripEmptyAssets) 0
                (if ¬ (stripLayer layer).isAnonymous ∧ ¬ (stripLayer layer).hasDefaultPrim then
                   ["Root layer missing default prim specification: " ++ (stripLayer layer).identifier]
                 else [])
                []) := rfl
        have h2 : validateLayerStructure env (some layer :: rest)
            = layerVerdict
              (layerLoop env (some layer :: rest) 0
                (if ¬ layer.isAnonymous ∧ ¬ layer.hasDefaultPrim then
                   ["Root layer missing default prim specification: " ++ layer.identifier]
                 else [])
                []) := rfl
        rw [h1, h2, layerLoop_eq, layerLoop_eq]
        have h3 : some (stripLayer layer) :: rest.map stripEmptyAssets
            = (some layer :: rest).map stripEmptyAssets := by
          simp [stripEmptyAssets]
        rw [h3, stackBlocks_strip]
        simp [stripLayer]
  · intro refs errs
    simp [refErrors]
  · intro payloads errs
    simp [payloadErrors]

/-! ## The geometry analyzer (`validateGeometry`) -/

/-- Result of reading an attribute: absent handle (`GetExtentAttr()` yields
an invalid attribute), present but unreadable (`Get` returns false), or a
value. -/
inductive AttrRead (α : Type) where
  | absent : AttrRead α
  | unreadable : AttrRead α
  | value : α → AttrRead α
deriving DecidableEq

/-- A `UsdGeomMesh` prim's attributes. Extent and points arrays hold
`GfVec3f` entries; the analyzer only compares entries with `==`
(componentwise float equality), so the entry type is any `V` with boolean
equality. -/
structure MeshData (V : Type) where
  extent : AttrRead (List V)
  points : AttrRead (List V)
deriving DecidableEq

/-- A `UsdGeomXform` prim's ordered transform ops: whether each op's
backing attribute is valid (`op.GetAttr()`). -/
structure XformData where
  xformOps : List Bool
deriving DecidableEq

/-- One prim of `UsdStage::Traverse` as seen by the geometry analyzer. -/
structure GeomPrim (V : Type) where
  path : String
  isValid : Bool
  xform : Option XformData
  mesh : Option (MeshData V)
deriving DecidableEq

/-- The stage surface of `validateGeometry`: the pseudo-root's validity and
the traversal. -/
structure GeomStage (V : Type) where
  rootValid : Bool
  prims : List (GeomPrim V)

/-- The xform-op check (`main.cpp` lines 235-246). -/
def xformOpErrors (path : String) (x : Option XformData) (errs : List String) : List String :=
  match x with
  | some xf => xf.xformOps.foldl (fun errs ok =>
      if !ok then errs ++ ["Invalid transform operation found at: " ++ path] else errs) errs
  | none => errs

/-- The extent check (`main.cpp` lines 249-262): missing attribute,
unreadable value, or a two-entry array whose min equals max; a readable
array of any other size produces no error. -/
def extentErrors {V : Type} [BEq V] (path : String) (extent : AttrRead (List V))
    (errs : List String) : List String :=
  match extent with
  | AttrRead.absent => errs ++ ["Extent missing for Mesh at path: " ++ path]
  | AttrRead.unreadable => errs ++ ["Invalid extent bounds at: " ++ path]
  | AttrRead.value arr =>
    match arr with
    | [mn, mx] => if mn == mx then errs ++ ["Degenerate geometry found at: " ++ path] else errs
    | _ => errs

/-- The points check (`main.cpp` lines 264-269): only an unreadable points
attribute is an error; absence is not. -/
def pointsErrors {V : Type} (path : String) (pts : AttrRead (List V))
    (errs : List String) : List String :=
  match pts with
  | AttrRead.unreadable => errs ++ ["Invalid point data at: " ++ path]
  | _ => errs

/-- The mesh branch of the traversal body (`main.cpp` lines 248-270). -/
def meshErrors {V : Type} [BEq V] (path : String) (m : Option (MeshData V))
    (errs : List String) : List String :=
  match m with
  | some mesh => pointsErrors path mesh.points (extentErrors path mesh.extent errs)
  | none => errs

/-- The traversal loop of `validateGeometry` (`main.cpp` lines 226-273). -/
def geomLoop {V : Type} [BEq V] : List (GeomPrim V) → Bool → List String → Bool × List String
  | [], found, errs => (found, errs)
  | p :: rest, found, errs =>
    if !p.isValid then
      geomLoop rest found (errs ++ ["Encountered an invalid prim in the scene: " ++ p.path])
    else if p.xform.isSome || p.mesh.isSome then
      geomLoop rest true (meshErrors p.path p.mesh (xformOpErrors p.path p.xform errs))
    else
      geomLoop rest found errs

/-- `validateGeometry` (`main.cpp` lines 213-292); the null-stage guard is
not modelled. -/
def validateGeometry {V : Type} [BEq V] (stage : GeomStage V) : TestResult :=
  if !stage.rootValid then
    { testName := "Validate Geometry", passed := false, message := "No root prim found in the scene." }
  else if !(geomLoop stage.prims false []).1 then
    { testName := "Validate Geometry", passed := true,
      message := "No geometry found in the scene, but that's not required." }
  else if !(geomLoop stage.prims false []).2.isEmpty then
    { testName := "Validate Geometry", passed := false,
      message := renderErrors "Geometry validation failed with the following issues:\n"
        (geomLoop stage.prims false []).2 }
  else
    { testName := "Validate Geometry", passed := true,
      message := "All geometry prims are valid with proper transforms and bounds." }

/-- Spec-side xform-op error block. -/
def xformOpBlock (path : String) (x : Option XformData) : List String :=
  match x with
  | some xf => xf.xformOps.flatMap (fun ok =>
      if !ok then ["Invalid transform operation found at: " ++ path] else [])
  | none => []

/-- Spec-side extent error block. -/
def extentBlock {V : Type} [BEq V] (path : String) (extent : AttrRead (List V)) : List String :=
  match extent with
  | AttrRead.absent => ["Extent missing for Mesh at path: " ++ path]
  | AttrRead.unreadable => ["Invalid extent bounds at: " ++ path]
  | AttrRead.value arr =>
    match arr with
    | [mn, mx] => if mn == mx then ["Degenerate geometry found at: " ++ path] else []
    | _ => []

/-- Spec-side points error block. -/
def pointsBlock {V : Type} (path : String) (pts : AttrRead (List V)) : List String :=
  match pts with
  | AttrRead.unreadable => ["Invalid point data at: " ++ path]
  | _ => []

/-- Spec-side per-prim error block of the geometry traversal. -/
def geomPrimBlock {V : Type} [BEq V] (p : GeomPrim V) : List String :=
  if !p.isValid then ["Encountered an invalid prim in the scene: " ++ p.path]
  else if p.xform.isSome || p.mesh.isSome then
    xformOpBlock p.path p.xform ++
      (match p.mesh with
       | some mesh => extentBlock p.path mesh.extent ++ pointsBlock p.path mesh.points
       | none => [])
  else []

/-- Whether a prim counts as geometry for `foundGeometryPrim`. -/
def isGeomContributor {V : Type} (p : GeomPrim V) : Bool :=
  p.isValid && (p.xform.isSome || p.mesh.isSome)

theorem xformOpErrors_eq (path : String) (x : Option XformData) (errs : List String) :
    xformOpErrors path x errs = errs ++ xformOpBlock path x := by
  cases x with
  | none => simp [xformOpErrors, xformOpBlock]
  | some xf =>
    unfold xformOpErrors xformOpBlock
    exact foldl_guard_append (fun ok => (!ok) = true)
      (fun _ => "Invalid transform operation found at: " ++ path) xf.xformOps errs

theorem extentErrors_eq {V : Type} [BEq V] (path : String) (extent : AttrRead (List V))
    (errs : List String) :
    extentErrors path extent errs = errs ++ extentBlock path extent := by
  cases extent with
  | absent => rfl
  | unreadable => rfl
  | value arr =>
    match arr with
    | [] => simp [extentErrors, extentBlock]
    | [a] => simp [extentErrors, extentBlock]
    | [mn, mx] =>
      by_cases h : (mn == mx) = true
      · simp [extentErrors, extentBlock, h]
      · simp [extentErrors, extentBlock, h]
    | a :: b :: c :: more => simp [extentErrors, extentBlock]

theorem pointsErrors_eq {V : Type} (path : String) (pts : AttrRead (List V))
    (errs : List String) :
    pointsErrors path pts errs = errs ++ pointsBlock path pts := by
  cases pts <;> simp [pointsErrors, pointsBlock]

theorem meshErrors_eq {V : Type} [BEq V] (path : String) (m : Option (MeshData V))
    (errs : List String) :
    meshErrors path m errs
      = errs ++ (match m with
                 | some mesh => extentBlock path mesh.extent ++ pointsBlock path mesh.points
                 | none => []) := by
  cases m with
  | none => simp [meshErrors]
  | some mesh =>
    simp only [meshErrors]
    rw [pointsErrors_eq, extentErrors_eq, List.append_assoc]

theorem geomLoop_eq {V : Type} [BEq V] :
    ∀ (l : List (GeomPrim V)) (found : Bool) (errs : List String),
      geomLoop l found errs
        = (found || l.any isGeomContributor, errs ++ l.flatMap geomPrimBlock) := by
  intro l
  induction l with
  | nil => intro found errs; simp [geomLoop]
  | cons p rest ih =>
    intro found errs
    unfold geomLoop
    split
    · rename_i hval
      rw [ih]
      simp only [Bool.not_eq_true'] at hval
      simp [isGeomContributor, geomPrimBlock, hval, List.append_assoc]
    · split
      · rename_i hval hcond
        rw [ih, meshErrors_eq, xformOpErrors_eq]
        simp only [Bool.not_eq_true, Bool.not_eq_false] at hval
        simp [isGeomContributor, geomPrimBlock, hval, hcond, List.append_assoc]
        exact Or.inr (Or.inl (by simpa using hval))
      · rename_i hval hcond
        rw [ih]
        simp only [Bool.not_eq_true, Bool.not_eq_false] at hval
        simp only [Bool.not_eq_true] at hcond
        simp [isGeomContributor, geomPrimBlock, hval, hcond]

theorem renderErrors_ext (header : String) (errs : List String) :
    ∃ tail, renderErrors header errs = header ++ tail := by
  induction errs generalizing header with
  | nil => exact ⟨"", (String.append_empty header).symm⟩
  | cons e rest ih =>
    obtain ⟨tail, htail⟩ := ih (header ++ "- " ++ e ++ "\n")
    refine ⟨"- " ++ e ++ "\n" ++ tail, ?_⟩
    unfold renderErrors at htail ⊢
    rw [List.foldl_cons, htail]
    simp [String.append_assoc]

theorem renderErrors_mem (header : String) (errs : List String) (e : String) (he : e ∈ errs) :
    ∃ pre post, renderErrors header errs = pre ++ e ++ post := by
  induction errs generalizing header with
  | nil => cases he
  | cons a rest ih =>
    rcases List.mem_cons.mp he with rfl | hrest
    · obtain ⟨tail, htail⟩ := renderErrors_ext (header ++ "- " ++ e ++ "\n") rest
      refine ⟨header ++ "- ", "\n" ++ tail, ?_⟩
      unfold renderErrors at htail ⊢
      rw [List.foldl_cons, htail]
      simp [String.append_assoc]
    · obtain ⟨pre, post, hp⟩ := ih (header ++ "- " ++ a ++ "\n") hrest
      refine ⟨pre, post, ?_⟩
      unfold renderErrors at hp ⊢
      rw [List.foldl_cons]
      exact hp

/-- C9: a valid mesh prim whose extent attribute is readable as exactly two
entries with min equal to max makes `validateGeometry` fail with a message
containing "Degenerate geometry found at: " followed by the prim's path;
a missing extent attribute and a present-but-unreadable one each produce
their own error for that prim instead. -/
theorem validateGeometry_extent_cases {V : Type} [BEq V] (stage : GeomStage V)
    (p : GeomPrim V) (m : MeshData V)
    (hroot : stage.rootValid = true) (hp : p ∈ stage.prims) (hval : p.isValid = true)
    (hm : p.mesh = some m) :
    (∀ a b, m.extent = AttrRead.value [a, b] → (a == b) = true →
      (validateGeometry stage).passed = false ∧
      ∃ pre post, (validateGeometry stage).message
        = pre ++ ("Degenerate geometry found at: " ++ p.path) ++ post) ∧
    (m.extent = AttrRead.absent →
      (validateGeometry stage).passed = false ∧
      ∃ pre post, (validateGeometry stage).message
        = pre ++ ("Extent missing for Mesh at path: " ++ p.path) ++ post) ∧
    (m.extent = AttrRead.unreadable →
      (validateGeometry stage).passed = false ∧
      ∃ pre post, (validateGeometry stage).message
        = pre ++ ("Invalid extent bounds at: " ++ p.path) ++ post) := by
  have hfound : stage.prims.any isGeomContributor = true := by
    apply List.any_eq_true.mpr
    exact ⟨p, hp, by simp [isGeomContributor, hval, hm]⟩
  have hblock : ∀ e, e ∈ extentBlock p.path m.extent →
      (validateGeometry stage).passed = false ∧
      ∃ pre post, (validateGeometry stage).message = pre ++ e ++ post := by
    intro e he
    have hmem : e ∈ (geomLoop stage.prims false []).2 := by
      rw [geomLoop_eq]
      have hinner : e ∈ geomPrimBlock p := by
        have hx : e ∈ xformOpBlock p.path p.xform ++
            (extentBlock p.path m.extent ++ pointsBlock p.path m.points) :=
          List.mem_append_right _ (List.mem_append_left _ he)
        simpa [geomPrimBlock, hval, hm] using hx
      simpa using List.mem_flatMap.mpr ⟨p, hp, hinner⟩
    have hloopfound : (geomLoop stage.prims false []).1 = true := by
      rw [geomLoop_eq]
      simpa using hfound
    have hempty : (geomLoop stage.prims false []).2.isEmpty = false := by
      rcases hnil : (geomLoop stage.prims false []).2 with _ | ⟨x, xs⟩
      · rw [hnil] at hmem
        cases hmem
      · rfl
    have hres : validateGeometry stage =
        { testName := "Validate Geometry", passed := false,
          message := renderErrors "Geometry validation failed with the following issues:\n"
            (geomLoop stage.prims false []).2 } := by
      unfold validateGeometry
      rw [if_neg (by simp [hroot]), if_neg (by simp [hloopfound]), if_pos (by simp [hempty])]
    rw [hres]
    exact ⟨rfl, renderErrors_mem _ _ e hmem⟩
  refine ⟨?_, ?_, ?_⟩
  · intro a b hext hab
    apply hblock
    rw [hext]
    simp [extentBlock, hab]
  · intro hext
    apply hblock
    rw [hext]
    simp [extentBlock]
  · intro hext
    apply hblock
    rw [hext]
    simp [extentBlock]

def degnMesh : MeshData Nat :=
  { extent := AttrRead.value [1, 1], points := AttrRead.value [1] }

def degnPrim : GeomPrim Nat :=
  { path := "/Root/Mesh", isValid := true, xform := none, mesh := some degnMesh }

def degnStage : GeomStage Nat := { rootValid := true, prims := [degnPrim] }

/-- Witness for C9 on a one-prim stage whose mesh extent is the degenerate
two-point array [1, 1]. -/
theorem validateGeometry_extent_cases_witness :
    degnStage.rootValid = true ∧ degnPrim ∈ degnStage.prims ∧
    (validateGeometry degnStage).passed = false ∧
    (∃ pre post, (validateGeometry degnStage).message
      = pre ++ ("Degenerate geometry found at: " ++ degnPrim.path) ++ post) := by
  refine ⟨rfl, by decide, ?_⟩
  exact (validateGeometry_extent_cases degnStage degnPrim degnMesh rfl (by decide)
    rfl rfl).1 1 1 rfl rfl
